import Mathlib

/-!
# Verification of the `trezor.crypto.rfc6979` MicroPython binding

Shallow embedding of `src/micropython/extmod/modtrezorcrypto/modtrezorcrypto-rfc6979.h`
from the trezor-firmware repository.

The binding wraps two functions of the vendored trezor-crypto library,
`init_rfc6979` and `generate_rfc6979`, which are not part of the given
source slice; they are modelled here from the specification: RFC 6979
deterministic nonce generation via an HMAC-SHA256 DRBG seeded with the
32-byte private key followed by the 32-byte message hash.

Bytes are `Nat` values below 256; 32-bit machine words are `Nat` reduced
modulo `2 ^ 32` at every operation that may overflow.
-/

namespace Trezor

/-- Reduce a `Nat` to a 32-bit word. -/
def w32 (n : Nat) : Nat := n % 4294967296

/-- Right rotation of a 32-bit word by `n` places (`0 < n < 32`). -/
def rotr32 (x n : Nat) : Nat := w32 ((x >>> n) ||| (x <<< (32 - n)))

/-- Bitwise complement of a 32-bit word. -/
def not32 (x : Nat) : Nat := x ^^^ 0xffffffff

/-- `Ch(x, y, z)` of FIPS 180-4. -/
def sha256Ch (x y z : Nat) : Nat := (x &&& y) ^^^ (not32 x &&& z)

/-- `Maj(x, y, z)` of FIPS 180-4. -/
def sha256Maj (x y z : Nat) : Nat := (x &&& y) ^^^ (x &&& z) ^^^ (y &&& z)

/-- Large sigma 0. -/
def sha256S0 (x : Nat) : Nat := rotr32 x 2 ^^^ rotr32 x 13 ^^^ rotr32 x 22

/-- Large sigma 1. -/
def sha256S1 (x : Nat) : Nat := rotr32 x 6 ^^^ rotr32 x 11 ^^^ rotr32 x 25

/-- Small sigma 0. -/
def sha256s0 (x : Nat) : Nat := rotr32 x 7 ^^^ rotr32 x 18 ^^^ (x >>> 3)

/-- Small sigma 1. -/
def sha256s1 (x : Nat) : Nat := rotr32 x 17 ^^^ rotr32 x 19 ^^^ (x >>> 10)

/-- The 64 SHA-256 round constants. -/
def sha256K : List Nat :=
  [1116352408, 1899447441, 3049323471, 3921009573,
   961987163, 1508970993, 2453635748, 2870763221,
   3624381080, 310598401, 607225278, 1426881987,
   1925078388, 2162078206, 2614888103, 3248222580,
   3835390401, 4022224774, 264347078, 604807628,
   770255983, 1249150122, 1555081692, 1996064986,
   2554220882, 2821834349, 2952996808, 3210313671,
   3336571891, 3584528711, 113926993, 338241895,
   666307205, 773529912, 1294757372, 1396182291,
   1695183700, 1986661051, 2177026350, 2456956037,
   2730485921, 2820302411, 3259730800, 3345764771,
   3516065817, 3600352804, 4094571909, 275423344,
   430227734, 506948616, 659060556, 883997877,
   958139571, 1322822218, 1537002063, 1747873779,
   1955562222, 2024104815, 2227730452, 2361852424,
   2428436474, 2756734187, 3204031479, 3329325298]

/-- The eight working variables of the SHA-256 compression function. -/
structure Sha256State where
  a : Nat
  b : Nat
  c : Nat
  d : Nat
  e : Nat
  f : Nat
  g : Nat
  h : Nat
  deriving DecidableEq, Repr

/-- SHA-256 initial hash value. -/
def sha256IV : Sha256State :=
  ⟨1779033703, 3144134277, 1013904242, 2773480762,
   1359893119, 2600822924, 528734635, 1541459225⟩

/-- One round of the SHA-256 compression function; `kw` is the round
constant already added to the scheduled word. -/
def sha256Round (st : Sha256State) (kw : Nat) : Sha256State :=
  let t1 := w32 (st.h + sha256S1 st.e + sha256Ch st.e st.f st.g + kw)
  let t2 := w32 (sha256S0 st.a + sha256Maj st.a st.b st.c)
  ⟨w32 (t1 + t2), st.a, st.b, st.c, w32 (st.d + t1), st.e, st.f, st.g⟩

/-- Pointwise addition of two compression states modulo `2 ^ 32`. -/
def sha256Add (x y : Sha256State) : Sha256State :=
  ⟨w32 (x.a + y.a), w32 (x.b + y.b), w32 (x.c + y.c), w32 (x.d + y.d),
   w32 (x.e + y.e), w32 (x.f + y.f), w32 (x.g + y.g), w32 (x.h + y.h)⟩

/-- The words of the message schedule from position 16 on, computed from a
sliding window of the previous 16 words (`win` is `w[i-16] … w[i-1]`);
`n` counts the words still to produce. -/
def sha256ScheduleTail : Nat → List Nat → List Nat
  | 0, _ => []
  | n + 1, win =>
      let w := w32 (sha256s1 (win.getD 14 0) + win.getD 9 0 +
                    sha256s0 (win.getD 1 0) + win.getD 0 0)
      w :: sha256ScheduleTail n (win.drop 1 ++ [w])

/-- Extend the 16 words of a block to the 64-word message schedule. -/
def sha256Schedule (w16 : List Nat) : List Nat :=
  w16 ++ sha256ScheduleTail 48 w16

/-- Compress one 64-byte block, given as its 16 big-endian 32-bit words. -/
def sha256Compress (h : Sha256State) (block : List Nat) : Sha256State :=
  let ws := sha256Schedule block
  let kws := List.zipWith (fun k w => w32 (k + w)) sha256K ws
  sha256Add h (kws.foldl sha256Round h)

/-- Group a byte list into big-endian 32-bit words, four bytes per word. -/
def bytesToWords : List Nat → List Nat
  | b0 :: b1 :: b2 :: b3 :: rest =>
      (((b0 * 256 + b1) * 256 + b2) * 256 + b3) :: bytesToWords rest
  | _ => []

/-- Big-endian byte serialisation of a `Nat` on `len` bytes. -/
def natToBytesBE (len n : Nat) : List Nat :=
  (List.range len).map (fun i => (n >>> (8 * (len - 1 - i))) % 256)

/-- The four big-endian bytes of a 32-bit word. -/
def wordToBytes (w : Nat) : List Nat :=
  [(w >>> 24) % 256, (w >>> 16) % 256, (w >>> 8) % 256, w % 256]

/-- The 32 digest bytes of a final compression state. -/
def sha256Digest (st : Sha256State) : List Nat :=
  wordToBytes st.a ++ wordToBytes st.b ++ wordToBytes st.c ++ wordToBytes st.d ++
  wordToBytes st.e ++ wordToBytes st.f ++ wordToBytes st.g ++ wordToBytes st.h

/-- SHA-256 padding: append `0x80`, zero bytes up to 56 modulo 64, then the
message bit length on eight big-endian bytes. -/
def sha256Pad (msg : List Nat) : List Nat :=
  msg ++ [0x80] ++ List.replicate ((119 - msg.length % 64) % 64) 0 ++
  natToBytesBE 8 (8 * msg.length)

/-- Split a byte list into 64-byte chunks; the first argument is fuel and is
passed the list length at the top call. -/
def chunks64 : Nat → List Nat → List (List Nat)
  | 0, _ => []
  | _, [] => []
  | fuel + 1, l => l.take 64 :: chunks64 fuel (l.drop 64)

/-- SHA-256 of a byte list, as a list of 32 bytes. -/
def sha256 (msg : List Nat) : List Nat :=
  let padded := sha256Pad msg
  let blocks := chunks64 padded.length padded
  sha256Digest ((blocks.map bytesToWords).foldl sha256Compress sha256IV)

/-- HMAC-SHA256 (FIPS 198-1) of `msg` under `key`, as a list of 32 bytes. -/
def hmacSha256 (key msg : List Nat) : List Nat :=
  let k0 :=
    if key.length > 64 then sha256 key ++ List.replicate 32 0
    else key ++ List.replicate (64 - key.length) 0
  let inner := sha256 ((k0.map (fun b => b ^^^ 0x36)) ++ msg)
  sha256 ((k0.map (fun b => b ^^^ 0x5c)) ++ inner)

/-- Modelled from the spec: the opaque `rfc6979_state` record of the external
trezor-crypto library (not part of the source slice). Per RFC 6979 it is the
HMAC-DRBG working state, a key `k` and a chaining value `v` of 32 bytes each. -/
structure rfc6979_state where
  k : List Nat
  v : List Nat
  deriving DecidableEq, Repr

/-- The HMAC-DRBG update step of RFC 6979 section 3.2 (steps d-g when `data`
is nonempty, the tail of step h when it is empty). -/
def hmacDrbgUpdate (st : rfc6979_state) (data : List Nat) : rfc6979_state :=
  let k1 := hmacSha256 st.k (st.v ++ [0x00] ++ data)
  let v1 := hmacSha256 k1 st.v
  if data.isEmpty then ⟨k1, v1⟩
  else
    let k2 := hmacSha256 k1 (v1 ++ [0x01] ++ data)
    let v2 := hmacSha256 k2 v1
    ⟨k2, v2⟩

/-- Modelled from the spec: `init_rfc6979` of the external trezor-crypto
library (not part of the source slice). Per the spec it creates the internal
generator state deterministically from the 32-byte private key and the
32-byte message hash — RFC 6979 section 3.2 steps b-d: `K = 0x00…00`,
`V = 0x01…01`, then one DRBG update seeded with `privateKey ‖ messageHash`. -/
def init_rfc6979 (pkey hash : List Nat) : rfc6979_state :=
  hmacDrbgUpdate ⟨List.replicate 32 0x00, List.replicate 32 0x01⟩ (pkey ++ hash)

/-- Modelled from the spec: `generate_rfc6979` of the external trezor-crypto
library (not part of the source slice). Per the spec each invocation yields
the next 32 deterministic pseudorandom bytes and advances the internal state
— RFC 6979 section 3.2 step h: `V = HMAC(K, V)` gives the 32 output bytes
(one HMAC fills the whole request), then the empty-data DRBG update prepares
the next call. -/
def generate_rfc6979 (st : rfc6979_state) : List Nat × rfc6979_state :=
  let v1 := hmacSha256 st.k st.v
  (v1, hmacDrbgUpdate ⟨st.k, v1⟩ [])

/-! ## The MicroPython binding

Embedding of `modtrezorcrypto-rfc6979.h`. Host objects offered as
arguments either support read access under the buffer protocol (carrying
some byte contents) or do not; the binding observes nothing else about
them. Each run of the constructor is recorded as the list of observable
actions it performs, in order, together with its result. -/

/-- A host-runtime object as seen through `mp_get_buffer`: either it
supports the buffer protocol and exposes byte contents, or it does not. -/
inductive MpObj where
  | buffer (data : List Nat)
  | nonBuffer
  deriving DecidableEq

/-- The access mode requested from `mp_get_buffer`; the binding only ever
requests `MP_BUFFER_READ`. -/
inductive BufferMode where
  | read
  | write
  deriving DecidableEq

/-- The recoverable errors the constructor can raise. -/
inductive MpError where
  | typeErrorArgCount
  | typeErrorNotBuffer
  | valueError (msg : String)
  deriving DecidableEq

/-- Observable actions of one constructor run, in program order:
the arity check, the object allocation (`m_new_obj`), each buffer
acquisition with its access mode, each length check, and the seeding of
the generator state (`init_rfc6979`). -/
inductive Event where
  | argCheckNum
  | allocObj
  | getBuffer (idx : Nat) (mode : BufferMode)
  | checkPkeyLen
  | checkHashLen
  | initRng
  deriving DecidableEq

/-- Modelled from the spec: `mp_arg_check_num(n_args, n_kw, 2, 2, false)`
of the MicroPython runtime (not part of the source slice) — raises a
TypeError unless there are exactly two positional and no keyword
arguments; the keyword check comes first. -/
def mp_arg_check_num (n_args n_kw : Nat) : Except MpError Unit :=
  if n_kw ≠ 0 then Except.error MpError.typeErrorArgCount
  else if n_args ≠ 2 then Except.error MpError.typeErrorArgCount
  else Except.ok ()

/-- Modelled from the spec: `mp_get_buffer_raise(obj, &info, MP_BUFFER_READ)`
of the MicroPython runtime (not part of the source slice) — yields the byte
contents of a buffer-protocol object and raises a TypeError otherwise. -/
def mp_get_buffer_raise : MpObj → Except MpError (List Nat)
  | MpObj.buffer data => Except.ok data
  | MpObj.nonBuffer => Except.error MpError.typeErrorNotBuffer

instance {ε α : Type} [DecidableEq ε] [DecidableEq α] : DecidableEq (Except ε α) :=
  fun x y =>
    match x, y with
    | Except.error a, Except.error b =>
        if h : a = b then isTrue (by rw [h]) else isFalse fun hc => h (Except.error.inj hc)
    | Except.error _, Except.ok _ => isFalse nofun
    | Except.ok _, Except.error _ => isFalse nofun
    | Except.ok a, Except.ok b =>
        if h : a = b then isTrue (by rw [h]) else isFalse fun hc => h (Except.ok.inj hc)

/-- The instance record `mp_obj_Rfc6979_t`: the `base` type tag installed
at construction and the `rng` generator state. -/
structure mp_obj_Rfc6979_t where
  base : String
  rng : rfc6979_state
  deriving DecidableEq

/-- `mod_TrezorCrypto_Rfc6979_make_new`, embedded together with the trace
of its observable actions. `args.getD i MpObj.nonBuffer` renders the C
array access `args[i]`, which the code performs only after the arity check
has passed (the caller supplies an array of `n_args` entries). -/
def mod_TrezorCrypto_Rfc6979_make_new (n_args n_kw : Nat) (args : List MpObj) :
    List Event × Except MpError mp_obj_Rfc6979_t :=
  match mp_arg_check_num n_args n_kw with
  | Except.error e => ([Event.argCheckNum], Except.error e)
  | Except.ok _ =>
    match mp_get_buffer_raise (args.getD 0 MpObj.nonBuffer) with
    | Except.error e =>
        ([Event.argCheckNum, Event.allocObj, Event.getBuffer 0 BufferMode.read],
         Except.error e)
    | Except.ok pkey =>
      match mp_get_buffer_raise (args.getD 1 MpObj.nonBuffer) with
      | Except.error e =>
          ([Event.argCheckNum, Event.allocObj, Event.getBuffer 0 BufferMode.read,
            Event.getBuffer 1 BufferMode.read], Except.error e)
      | Except.ok hash =>
        if pkey.length ≠ 32 then
          ([Event.argCheckNum, Event.allocObj, Event.getBuffer 0 BufferMode.read,
            Event.getBuffer 1 BufferMode.read, Event.checkPkeyLen],
           Except.error (MpError.valueError "Private key has to be 32 bytes long"))
        else if hash.length ≠ 32 then
          ([Event.argCheckNum, Event.allocObj, Event.getBuffer 0 BufferMode.read,
            Event.getBuffer 1 BufferMode.read, Event.checkPkeyLen, Event.checkHashLen],
           Except.error (MpError.valueError "Hash has to be 32 bytes long"))
        else
          ([Event.argCheckNum, Event.allocObj, Event.getBuffer 0 BufferMode.read,
            Event.getBuffer 1 BufferMode.read, Event.checkPkeyLen, Event.checkHashLen,
            Event.initRng],
           Except.ok { base := "Rfc6979", rng := init_rfc6979 pkey hash })

/-- `mod_TrezorCrypto_Rfc6979_next`: produce the next 32 pseudorandom bytes
and the instance with its `rng` field advanced; nothing else of the
instance is touched. -/
def mod_TrezorCrypto_Rfc6979_next (o : mp_obj_Rfc6979_t) :
    List Nat × mp_obj_Rfc6979_t :=
  let r := generate_rfc6979 o.rng
  (r.1, { o with rng := r.2 })

/-- The outputs of `n` successive `next` calls on an instance, in call
order. -/
def nextOutputs (o : mp_obj_Rfc6979_t) : Nat → List (List Nat)
  | 0 => []
  | n + 1 =>
      let r := mod_TrezorCrypto_Rfc6979_next o
      r.1 :: nextOutputs r.2 n

/-- The `Ready` logical state of the spec's state machine: an instance is
Ready when it was produced by a successful construction, or by a `next`
call on a Ready instance. -/
inductive Ready : mp_obj_Rfc6979_t → Prop where
  | constructed (n_args n_kw : Nat) (args : List MpObj) (tr : List Event)
      (o : mp_obj_Rfc6979_t) :
      mod_TrezorCrypto_Rfc6979_make_new n_args n_kw args = (tr, Except.ok o) →
      Ready o
  | advanced (o : mp_obj_Rfc6979_t) : Ready o →
      Ready (mod_TrezorCrypto_Rfc6979_next o).2

/-- `true` when some two adjacent entries of the list are equal. -/
def hasConsecutiveRepeat : List (List Nat) → Bool
  | x :: y :: rest => x == y || hasConsecutiveRepeat (y :: rest)
  | _ => false

/-! ## Concrete evaluations

Test data from RFC 6979 appendix A.2.5 (curve P-256, SHA-256): the
private key `x`, `h = SHA-256("sample")` and `h = SHA-256("test")`. The
first generator output for each pair must be the published deterministic
nonce `k` of the RFC, which checks the modelled algorithm against the
standard. -/

/-- RFC 6979 A.2.5 private key `x`. -/
def testPk1 : List Nat :=
  [0xc9, 0xaf, 0xa9, 0xd8, 0x45, 0xba, 0x75, 0x16,
   0x6b, 0x5c, 0x21, 0x57, 0x67, 0xb1, 0xd6, 0x93,
   0x4e, 0x50, 0xc3, 0xdb, 0x36, 0xe8, 0x9b, 0x12,
   0x7b, 0x8a, 0x62, 0x2b, 0x12, 0x0f, 0x67, 0x21]

/-- `SHA-256("sample")`, the message hash of RFC 6979 A.2.5. -/
def testHash1 : List Nat :=
  [0xaf, 0x2b, 0xdb, 0xe1, 0xaa, 0x9b, 0x6e, 0xc1,
   0xe2, 0xad, 0xe1, 0xd6, 0x94, 0xf4, 0x1f, 0xc7,
   0x1a, 0x83, 0x1d, 0x02, 0x68, 0xe9, 0x89, 0x15,
   0x62, 0x11, 0x3d, 0x8a, 0x62, 0xad, 0xd1, 0xbf]

/-- `SHA-256("test")`, the second message hash of RFC 6979 A.2.5. -/
def testHash2 : List Nat :=
  [0x9f, 0x86, 0xd0, 0x81, 0x88, 0x4c, 0x7d, 0x65,
   0x9a, 0x2f, 0xea, 0xa0, 0xc5, 0x5a, 0xd0, 0x15,
   0xa3, 0xbf, 0x4f, 0x1b, 0x2b, 0x0b, 0x82, 0x2c,
   0xd1, 0x5d, 0x6c, 0x15, 0xb0, 0xf0, 0x0a, 0x08]

/-- The seeded generator state for test pair 1. -/
def testState1 : rfc6979_state :=
  ⟨[0xb6, 0xd4, 0xf9, 0x8e, 0xba, 0xe7, 0x0a, 0xa1,
   0x5a, 0x22, 0x38, 0xad, 0xe4, 0xe2, 0x0a, 0xb3,
   0x23, 0xfc, 0x1e, 0x77, 0x7d, 0x22, 0xf0, 0xc5,
   0x82, 0xd8, 0xef, 0x2e, 0x6b, 0xa7, 0x35, 0x69],
   [0xba, 0xe5, 0x7f, 0xe2, 0x56, 0xde, 0x2d, 0xe8,
   0x06, 0xb1, 0x06, 0x35, 0x49, 0x72, 0x37, 0xe7,
   0xba, 0xe9, 0x67, 0x54, 0x58, 0x25, 0x66, 0x38,
   0x4c, 0x47, 0xc6, 0xc3, 0x41, 0x64, 0x94, 0xd1]⟩

/-- Expected output 1 of test pair 1. -/
def testOut11 : List Nat :=
  [0xa6, 0xe3, 0xc5, 0x7d, 0xd0, 0x1a, 0xbe, 0x90,
   0x08, 0x65, 0x38, 0x39, 0x83, 0x55, 0xdd, 0x4c,
   0x3b, 0x17, 0xaa, 0x87, 0x33, 0x82, 0xb0, 0xf2,
   0x4d, 0x61, 0x29, 0x49, 0x3d, 0x8a, 0xad, 0x60]

/-- Expected output 2 of test pair 1. -/
def testOut12 : List Nat :=
  [0x8e, 0x83, 0xdc, 0x49, 0x0b, 0xc5, 0xfc, 0x4d,
   0x59, 0x92, 0xbd, 0x63, 0xcd, 0x87, 0xf2, 0x54,
   0xad, 0xff, 0xcb, 0x93, 0x0f, 0x8a, 0x80, 0x11,
   0x70, 0x2a, 0x88, 0x87, 0x0f, 0x63, 0x8f, 0xdb]

/-- Expected output 3 of test pair 1. -/
def testOut13 : List Nat :=
  [0x7b, 0x8d, 0xc9, 0xad, 0x8c, 0xe1, 0x59, 0xab,
   0xca, 0x1b, 0x99, 0x15, 0xfc, 0x14, 0x70, 0xe9,
   0x1d, 0x5a, 0xd2, 0x44, 0x3b, 0x30, 0x32, 0x55,
   0x7e, 0x78, 0xf4, 0x7e, 0x18, 0x0a, 0xb7, 0x02]

/-- The seeded generator state for test pair 2. -/
def testState2 : rfc6979_state :=
  ⟨[0x11, 0x71, 0xb5, 0x89, 0xe2, 0x80, 0xcd, 0x02,
   0x2b, 0x39, 0x66, 0x6f, 0x53, 0x83, 0x28, 0x1a,
   0x05, 0xbf, 0x23, 0x61, 0x13, 0x83, 0x27, 0x3f,
   0x72, 0xbb, 0xf9, 0xf1, 0xbc, 0xe4, 0xff, 0x62],
   [0x47, 0x92, 0x5a, 0x06, 0xee, 0x33, 0x0f, 0x7e,
   0x0b, 0x83, 0x44, 0x1b, 0xd4, 0xe1, 0x92, 0x0c,
   0x67, 0xe6, 0x2b, 0x53, 0xb5, 0x77, 0x56, 0x6f,
   0x53, 0x0c, 0x71, 0xf1, 0x3a, 0x83, 0x80, 0x88]⟩

/-- Expected output 1 of test pair 2. -/
def testOut21 : List Nat :=
  [0xd1, 0x6b, 0x6a, 0xe8, 0x27, 0xf1, 0x71, 0x75,
   0xe0, 0x40, 0x87, 0x1a, 0x1c, 0x7e, 0xc3, 0x50,
   0x01, 0x92, 0xc4, 0xc9, 0x26, 0x77, 0x33, 0x6e,
   0xc2, 0x53, 0x7a, 0xca, 0xee, 0x00, 0x08, 0xe0]

/-- Expected output 2 of test pair 2. -/
def testOut22 : List Nat :=
  [0xed, 0x6f, 0xc8, 0x7d, 0xcb, 0x55, 0x82, 0x74,
   0xe8, 0x4d, 0x7d, 0x37, 0x99, 0xf1, 0x2f, 0x8f,
   0x27, 0x9c, 0x07, 0xfa, 0x53, 0x01, 0xa7, 0xcd,
   0x33, 0xf0, 0xad, 0x98, 0x66, 0xcd, 0x8c, 0xa0]

/-- Expected output 3 of test pair 2. -/
def testOut23 : List Nat :=
  [0x10, 0xa9, 0x22, 0x8c, 0x3b, 0x8f, 0x49, 0x76,
   0x94, 0x9c, 0x83, 0x75, 0xc3, 0xa4, 0x9f, 0xb6,
   0x58, 0xc3, 0x28, 0x3a, 0xfe, 0x72, 0x80, 0xe4,
   0x92, 0x70, 0x8e, 0x56, 0xc5, 0xe6, 0x53, 0xdf]

/-- The trace of a fully successful constructor run. -/
def successTrace : List Event :=
  [Event.argCheckNum, Event.allocObj, Event.getBuffer 0 BufferMode.read,
   Event.getBuffer 1 BufferMode.read, Event.checkPkeyLen, Event.checkHashLen,
   Event.initRng]

/-- The instance constructed from test pair 1. -/
def testInst1 : mp_obj_Rfc6979_t :=
  ⟨"Rfc6979", testState1⟩

/-- The instance constructed from test pair 2. -/
def testInst2 : mp_obj_Rfc6979_t :=
  ⟨"Rfc6979", testState2⟩

/-- The key/hash pairs tested for absence of consecutive repeated outputs:
the two RFC 6979 A.2.5 message hashes under the A.2.5 private key. -/
def testedPairs : List (List Nat × List Nat) :=
  [(testPk1, testHash1), (testPk1, testHash2)]

set_option maxRecDepth 100000 in
set_option maxHeartbeats 4000000 in
/-- Evaluation of the constructor on test pair 1; checks `testState1`
against the modelled `init_rfc6979`. -/
theorem make_new_eval1 :
    mod_TrezorCrypto_Rfc6979_make_new 2 0
      [MpObj.buffer testPk1, MpObj.buffer testHash1] =
    (successTrace, Except.ok testInst1) := by decide

set_option maxRecDepth 100000 in
set_option maxHeartbeats 4000000 in
/-- Evaluation of the constructor on test pair 2. -/
theorem make_new_eval2 :
    mod_TrezorCrypto_Rfc6979_make_new 2 0
      [MpObj.buffer testPk1, MpObj.buffer testHash2] =
    (successTrace, Except.ok testInst2) := by decide

set_option maxRecDepth 100000 in
set_option maxHeartbeats 8000000 in
/-- The first three outputs of the instance built from test pair 1. -/
theorem outputs_eval1 :
    nextOutputs testInst1 3 = [testOut11, testOut12, testOut13] := by decide

set_option maxRecDepth 100000 in
set_option maxHeartbeats 8000000 in
/-- The first three outputs of the instance built from test pair 2. -/
theorem outputs_eval2 :
    nextOutputs testInst2 3 = [testOut21, testOut22, testOut23] := by decide


/-! ## Shared lemmas -/

/-- The constructor on two plain buffers, reduced to its three possible
outcomes. -/
theorem make_new_on_buffers (pk h : List Nat) :
    mod_TrezorCrypto_Rfc6979_make_new 2 0 [MpObj.buffer pk, MpObj.buffer h] =
      if pk.length ≠ 32 then
        ([Event.argCheckNum, Event.allocObj, Event.getBuffer 0 BufferMode.read,
          Event.getBuffer 1 BufferMode.read, Event.checkPkeyLen],
         Except.error (MpError.valueError "Private key has to be 32 bytes long"))
      else if h.length ≠ 32 then
        ([Event.argCheckNum, Event.allocObj, Event.getBuffer 0 BufferMode.read,
          Event.getBuffer 1 BufferMode.read, Event.checkPkeyLen, Event.checkHashLen],
         Except.error (MpError.valueError "Hash has to be 32 bytes long"))
      else
        ([Event.argCheckNum, Event.allocObj, Event.getBuffer 0 BufferMode.read,
          Event.getBuffer 1 BufferMode.read, Event.checkPkeyLen, Event.checkHashLen,
          Event.initRng],
         Except.ok ⟨"Rfc6979", init_rfc6979 pk h⟩) := rfl

/-- A SHA-256 digest always has 32 bytes. -/
theorem sha256_length (msg : List Nat) : (sha256 msg).length = 32 := by
  simp [sha256, sha256Digest, wordToBytes]

/-- An HMAC-SHA256 tag always has 32 bytes. -/
theorem hmacSha256_length (key msg : List Nat) : (hmacSha256 key msg).length = 32 := by
  simp only [hmacSha256]
  exact sha256_length _

/-- The first output of the pair-1 generator is the deterministic nonce `k`
published in RFC 6979 A.2.5 for curve P-256 and message "sample"
(`testOut11` is exactly those bytes), checking the modelled algorithm
against the standard. -/
theorem rfc6979_vector_sample :
    (nextOutputs testInst1 3).head? = some testOut11 := by
  rw [outputs_eval1]; rfl

/-- The first output of the pair-2 generator is the deterministic nonce `k`
published in RFC 6979 A.2.5 for curve P-256 and message "test"
(`testOut21` is exactly those bytes). -/
theorem rfc6979_vector_test :
    (nextOutputs testInst2 3).head? = some testOut21 := by
  rw [outputs_eval2]; rfl

/-! ## The claims -/

/-- Claim C1: for a fixed pair of 32-byte buffers, two separately
constructed generator instances produce identical output sequences — the
k-th of the first n outputs of one equals the k-th of the other, for every
n and k. -/
theorem C1_deterministic_sequences (pk1 h1 pk2 h2 : List Nat)
    (o1 o2 : mp_obj_Rfc6979_t) (tr1 tr2 : List Event)
    (hpk : pk1 = pk2) (hh : h1 = h2)
    (m1 : mod_TrezorCrypto_Rfc6979_make_new 2 0 [MpObj.buffer pk1, MpObj.buffer h1] =
          (tr1, Except.ok o1))
    (m2 : mod_TrezorCrypto_Rfc6979_make_new 2 0 [MpObj.buffer pk2, MpObj.buffer h2] =
          (tr2, Except.ok o2))
    (n k : Nat) :
    (nextOutputs o1 n)[k]? = (nextOutputs o2 n)[k]? := by
  subst hpk; subst hh
  have h : o1 = o2 := Except.ok.inj (congrArg Prod.snd (m1.symm.trans m2))
  rw [h]

/-- Witness for C1 at the RFC 6979 A.2.5 test inputs. -/
theorem C1_deterministic_sequences_witness :
    (nextOutputs testInst1 3)[1]? = (nextOutputs testInst1 3)[1]? :=
  C1_deterministic_sequences testPk1 testHash1 testPk1 testHash1 testInst1 testInst1
    successTrace successTrace rfl rfl make_new_eval1 make_new_eval1 3 1

/-- Claim C2: construction fails with a ValueError exactly when one of the
two buffer lengths differs from 32; the private-key length is checked
first, so whenever it is wrong — in particular when both lengths are wrong
— the private-key error is the one reported, and the hash error appears
only with a 32-byte private key; with both lengths 32, construction
returns a generator instance. -/
theorem C2_length_validation (pk h : List Nat) :
    ((∃ msg, (mod_TrezorCrypto_Rfc6979_make_new 2 0 [MpObj.buffer pk, MpObj.buffer h]).2 =
        Except.error (MpError.valueError msg)) ↔ (pk.length ≠ 32 ∨ h.length ≠ 32))
    ∧ (pk.length ≠ 32 →
        (mod_TrezorCrypto_Rfc6979_make_new 2 0 [MpObj.buffer pk, MpObj.buffer h]).2 =
          Except.error (MpError.valueError "Private key has to be 32 bytes long"))
    ∧ (pk.length = 32 → h.length ≠ 32 →
        (mod_TrezorCrypto_Rfc6979_make_new 2 0 [MpObj.buffer pk, MpObj.buffer h]).2 =
          Except.error (MpError.valueError "Hash has to be 32 bytes long"))
    ∧ (pk.length = 32 → h.length = 32 →
        ∃ o, (mod_TrezorCrypto_Rfc6979_make_new 2 0 [MpObj.buffer pk, MpObj.buffer h]).2 =
          Except.ok o) := by
  rw [make_new_on_buffers]
  by_cases hp : pk.length = 32 <;> by_cases hh : h.length = 32 <;>
    simp [hp, hh]

/-- Witness for C2: a 1-byte private key is reported as the private-key
error. -/
theorem C2_length_validation_witness :
    (mod_TrezorCrypto_Rfc6979_make_new 2 0
        [MpObj.buffer [0x01], MpObj.buffer testHash1]).2 =
      Except.error (MpError.valueError "Private key has to be 32 bytes long") :=
  (C2_length_validation [0x01] testHash1).2.1 (by decide)

/-- Claim C3: every `next` call, on every instance whatever its prior
history, returns a 32-byte sequence. -/
theorem C3_next_returns_32_bytes (o : mp_obj_Rfc6979_t) :
    (mod_TrezorCrypto_Rfc6979_next o).1.length = 32 := by
  simp only [mod_TrezorCrypto_Rfc6979_next, generate_rfc6979]
  exact hmacSha256_length _ _

/-- Claim C4: for every tested (privateKey, messageHash) pair, the
instance the constructor returns yields pairwise different consecutive
outputs over its first three `next` calls — in particular two successive
calls yield two different values. -/
theorem C4_no_consecutive_repeats :
    ∀ p ∈ testedPairs, ∀ (tr : List Event) (o : mp_obj_Rfc6979_t),
      mod_TrezorCrypto_Rfc6979_make_new 2 0 [MpObj.buffer p.1, MpObj.buffer p.2] =
        (tr, Except.ok o) →
      hasConsecutiveRepeat (nextOutputs o 3) = false := by
  intro p hp tr o hmk
  simp only [testedPairs, List.mem_cons, List.not_mem_nil, or_false] at hp
  rcases hp with rfl | rfl
  · have h : testInst1 = o := Except.ok.inj (congrArg Prod.snd (make_new_eval1.symm.trans hmk))
    rw [← h, outputs_eval1]
    decide
  · have h : testInst2 = o := Except.ok.inj (congrArg Prod.snd (make_new_eval2.symm.trans hmk))
    rw [← h, outputs_eval2]
    decide

/-- Witness for C4 at the first tested pair. -/
theorem C4_no_consecutive_repeats_witness :
    hasConsecutiveRepeat (nextOutputs testInst1 3) = false :=
  C4_no_consecutive_repeats (testPk1, testHash1) (List.mem_cons_self _ _)
    successTrace testInst1 make_new_eval1

/-- Claim C5: whenever construction fails, the failing run performs no
`initRng` action — the generator state is never seeded — and no instance
is returned to the caller. -/
theorem C5_failure_no_partial_state (n_args n_kw : Nat) (args : List MpObj)
    (tr : List Event) (e : MpError)
    (hfail : mod_TrezorCrypto_Rfc6979_make_new n_args n_kw args = (tr, Except.error e)) :
    Event.initRng ∉ tr ∧
      ∀ o : mp_obj_Rfc6979_t,
        (mod_TrezorCrypto_Rfc6979_make_new n_args n_kw args).2 ≠ Except.ok o := by
  constructor
  · unfold mod_TrezorCrypto_Rfc6979_make_new at hfail
    split at hfail
    · rw [Prod.mk.injEq] at hfail
      obtain ⟨rfl, -⟩ := hfail
      decide
    · split at hfail
      · rw [Prod.mk.injEq] at hfail
        obtain ⟨rfl, -⟩ := hfail
        decide
      · split at hfail
        · rw [Prod.mk.injEq] at hfail
          obtain ⟨rfl, -⟩ := hfail
          decide
        · split at hfail
          · rw [Prod.mk.injEq] at hfail
            obtain ⟨rfl, -⟩ := hfail
            decide
          · split at hfail
            · rw [Prod.mk.injEq] at hfail
              obtain ⟨rfl, -⟩ := hfail
              decide
            · rw [Prod.mk.injEq] at hfail
              exact absurd hfail.2 (fun hc => Except.noConfusion hc)
  · intro o hc
    rw [hfail] at hc
    exact Except.noConfusion hc

/-- Witness for C5 at a run that fails the private-key length check. -/
theorem C5_failure_no_partial_state_witness :
    Event.initRng ∉ [Event.argCheckNum, Event.allocObj, Event.getBuffer 0 BufferMode.read,
      Event.getBuffer 1 BufferMode.read, Event.checkPkeyLen] ∧
    ∀ o : mp_obj_Rfc6979_t,
      (mod_TrezorCrypto_Rfc6979_make_new 2 0
          [MpObj.buffer [0x01], MpObj.buffer [0x02]]).2 ≠ Except.ok o :=
  C5_failure_no_partial_state 2 0 [MpObj.buffer [0x01], MpObj.buffer [0x02]]
    [Event.argCheckNum, Event.allocObj, Event.getBuffer 0 BufferMode.read,
     Event.getBuffer 1 BufferMode.read, Event.checkPkeyLen]
    (MpError.valueError "Private key has to be 32 bytes long") (by decide)

/-- Claim C6: after construction the seed buffers are never consulted
again: every `next` output depends only on the accumulated `rng` state, so
any two instances agreeing on `rng` — whatever buffers they were built
from and whatever became of those buffers since — produce identical output
sequences. -/
theorem C6_outputs_depend_only_on_state (o1 o2 : mp_obj_Rfc6979_t)
    (h : o1.rng = o2.rng) (n : Nat) :
    nextOutputs o1 n = nextOutputs o2 n := by
  induction n generalizing o1 o2 with
  | zero => rfl
  | succ n ih =>
      have hstep : (mod_TrezorCrypto_Rfc6979_next o1).1 =
          (mod_TrezorCrypto_Rfc6979_next o2).1 := by
        simp [mod_TrezorCrypto_Rfc6979_next, h]
      have htail : (mod_TrezorCrypto_Rfc6979_next o1).2.rng =
          (mod_TrezorCrypto_Rfc6979_next o2).2.rng := by
        simp [mod_TrezorCrypto_Rfc6979_next, h]
      simp only [nextOutputs]
      rw [hstep, ih _ _ htail]

/-- Witness for C6: two instances sharing the pair-1 state but nothing
else produce the same outputs. -/
theorem C6_outputs_depend_only_on_state_witness :
    nextOutputs ⟨"Rfc6979", testState1⟩ 2 = nextOutputs ⟨"other", testState1⟩ 2 :=
  C6_outputs_depend_only_on_state _ _ rfl 2

/-- Claim C7: a `next` call changes at most the `rng` field of the
instance — the only other field, the `base` type tag, is left unchanged —
and carries a Ready instance to a Ready instance, so the Ready state is
never left and no terminal state is reachable. -/
theorem C7_next_frame_and_ready (o : mp_obj_Rfc6979_t) (h : Ready o) :
    (mod_TrezorCrypto_Rfc6979_next o).2.base = o.base ∧
      Ready (mod_TrezorCrypto_Rfc6979_next o).2 :=
  ⟨rfl, Ready.advanced o h⟩

/-- Witness for C7 at the pair-1 instance, Ready by construction. -/
theorem C7_next_frame_and_ready_witness :
    (mod_TrezorCrypto_Rfc6979_next testInst1).2.base = testInst1.base ∧
      Ready (mod_TrezorCrypto_Rfc6979_next testInst1).2 :=
  C7_next_frame_and_ready testInst1
    (Ready.constructed 2 0 [MpObj.buffer testPk1, MpObj.buffer testHash1]
      successTrace testInst1 make_new_eval1)

/-- Claim C8: `next` has no recoverable failure: from any instance,
whatever its history, `n` successive calls always complete and yield
exactly `n` outputs (allocation of each result is modelled as succeeding;
allocation exhaustion is fatal per the spec, never surfaced as an error). -/
theorem C8_next_never_fails (o : mp_obj_Rfc6979_t) (n : Nat) :
    (nextOutputs o n).length = n := by
  induction n generalizing o with
  | zero => rfl
  | succ n ih => simp [nextOutputs, ih]

/-- Claim C9: a call with a keyword argument or with a positional-argument
count other than two fails with the argument-count error, and the arity
check is the only action performed — no buffer is read and no length is
checked. -/
theorem C9_arity_checked_first (n_args n_kw : Nat) (args : List MpObj)
    (h : n_kw ≠ 0 ∨ n_args ≠ 2) :
    mod_TrezorCrypto_Rfc6979_make_new n_args n_kw args =
      ([Event.argCheckNum], Except.error MpError.typeErrorArgCount) := by
  unfold mod_TrezorCrypto_Rfc6979_make_new mp_arg_check_num
  rcases h with h | h
  · simp [h]
  · by_cases hk : n_kw = 0 <;> simp [h, hk]

/-- Witness for C9 at a three-argument call. -/
theorem C9_arity_checked_first_witness :
    mod_TrezorCrypto_Rfc6979_make_new 3 0
        [MpObj.buffer [], MpObj.buffer [], MpObj.buffer []] =
      ([Event.argCheckNum], Except.error MpError.typeErrorArgCount) :=
  C9_arity_checked_first 3 0 _ (Or.inr (by decide))

/-- Claim C10: every buffer acquisition the constructor performs is in
read mode, so the caller's buffers are never written; any object exposing
byte contents under the buffer protocol is accepted as either argument;
and an argument that does not support the buffer protocol is rejected with
a type error on a trace containing no length check. -/
theorem C10_read_only_and_buffer_protocol :
    (∀ (n_args n_kw : Nat) (args : List MpObj) (i : Nat) (m : BufferMode),
        Event.getBuffer i m ∈ (mod_TrezorCrypto_Rfc6979_make_new n_args n_kw args).1 →
        m = BufferMode.read)
    ∧ (∀ x : MpObj,
        mod_TrezorCrypto_Rfc6979_make_new 2 0 [MpObj.nonBuffer, x] =
          ([Event.argCheckNum, Event.allocObj, Event.getBuffer 0 BufferMode.read],
           Except.error MpError.typeErrorNotBuffer))
    ∧ (∀ pk : List Nat,
        mod_TrezorCrypto_Rfc6979_make_new 2 0 [MpObj.buffer pk, MpObj.nonBuffer] =
          ([Event.argCheckNum, Event.allocObj, Event.getBuffer 0 BufferMode.read,
            Event.getBuffer 1 BufferMode.read],
           Except.error MpError.typeErrorNotBuffer)) := by
  refine ⟨?_, fun x => rfl, fun pk => rfl⟩
  intro n_args n_kw args i m hmem
  unfold mod_TrezorCrypto_Rfc6979_make_new at hmem
  split at hmem
  · simp at hmem
  · split at hmem
    · simp at hmem
      exact hmem.2
    · split at hmem
      · simp at hmem
        rcases hmem with h | h <;> exact h.2
      · split at hmem
        · simp at hmem
          rcases hmem with h | h <;> exact h.2
        · split at hmem
          · simp at hmem
            rcases hmem with h | h <;> exact h.2
          · simp at hmem
            rcases hmem with h | h <;> exact h.2

/-- Witness for C10: the mode of a performed buffer acquisition, and the
rejection of a non-buffer first argument. -/
theorem C10_read_only_and_buffer_protocol_witness :
    BufferMode.read = BufferMode.read ∧
    mod_TrezorCrypto_Rfc6979_make_new 2 0 [MpObj.nonBuffer, MpObj.nonBuffer] =
      ([Event.argCheckNum, Event.allocObj, Event.getBuffer 0 BufferMode.read],
       Except.error MpError.typeErrorNotBuffer) :=
  ⟨C10_read_only_and_buffer_protocol.1 2 0 [MpObj.buffer [0x01], MpObj.buffer [0x02]] 0
      BufferMode.read (by decide),
   C10_read_only_and_buffer_protocol.2.1 MpObj.nonBuffer⟩


end Trezor
